import Mathlib

/-!
Verification development for the Concept-Connector orchestration core.

The Python sources under src/agents are shallowly embedded below:

* Pure dictionaries become structures; keys that can be absent become Option
  fields.
* External collaborators (path finder model call, explanation builder,
  bias monitor, content reviewer) are oracle parameters of the pipeline:
  call-indexed functions supplying the value each invocation returns.
  The explanation builder oracle returns an Except because the orchestrator
  wraps exactly that stage in try/except; the other collaborators are
  modelled on the executions in which they return a value.
* Wall-clock durations and the free-text detail strings of timeline entries
  are not observable in any claim, so a timeline entry is modelled by its
  stage name only.
* Python deep copies become plain values: Lean values are immutable, so
  deep-copy-on-read/write is value passing.
-/

namespace ConceptConnector

/-- Retry strategies for regenerating content
(src/agents/orchestrator.py, class RetryStrategy). -/
inductive RetryStrategy where
  | emphasis
  | simplification
  | restructure
  deriving DecidableEq, Repr, Inhabited

/-- The .value attribute of the Python enum members. -/
def RetryStrategy.value : RetryStrategy → String
  | .emphasis => "emphasis"
  | .simplification => "simplification"
  | .restructure => "restructure"

/-- MAX_RETRIES = 2 (src/agents/orchestrator.py line 129). -/
def MAX_RETRIES : Nat := 2

/-- Orchestrator._get_retry_strategy (orchestrator.py lines 177-184):
retry_count 1 gives EMPHASIS, 2 gives SIMPLIFICATION, anything else
falls into the final else branch, RESTRUCTURE. -/
def get_retry_strategy (retry_count : Nat) : RetryStrategy :=
  if retry_count = 1 then .emphasis
  else if retry_count = 2 then .simplification
  else .restructure

/-- The strategy_prefixes dictionary of
Orchestrator._compose_guidance_with_strategy (orchestrator.py lines
197-201); every enum member is a key, so the .get default is unused. -/
def strategyHeader : RetryStrategy → String
  | .emphasis => "CRITICAL: Address the following issues with high priority. "
  | .simplification => "SIMPLIFY: Use simpler language and clearer structure. "
  | .restructure => "RESTRUCTURE: Completely reorganize the explanation with a fresh approach. "

/-- The bias-monitor verdict dictionary as consumed by the orchestrator:
bias_review.get("has_bias") and bias_review.get("raw", []).  An absent
has_bias key and False are indistinguishable through the truthiness
tests the orchestrator applies, and likewise an absent raw key and [],
so Bool and List String are faithful. -/
structure BiasReview where
  has_bias : Bool
  raw : List String
  deriving DecidableEq, Repr, Inhabited

/-- The content-review verdict dictionary as consumed by the orchestrator:
content_review.get("level_alignment", True) defaults an absent key to
True, hence an Option field; suggested_actions is read with plain .get,
where an absent key and an empty list are both falsy, hence a list.
Other keys of the dictionary (issues, reading_level, bias_risk) are
passed through untouched and are not modelled. -/
structure ContentReview where
  level_alignment : Option Bool
  suggested_actions : List String
  deriving DecidableEq, Repr, Inhabited

/-- content_review.get("level_alignment", True). -/
def alignmentOf (cr : ContentReview) : Bool := cr.level_alignment.getD true

/-- The mitigation trigger (orchestrator.py lines 356 and 416):
bias_review.get("has_bias") or not content_review.get("level_alignment", True). -/
def mitigationTriggered (br : BiasReview) (cr : ContentReview) : Bool :=
  br.has_bias || !(alignmentOf cr)

/-- Orchestrator._compose_guidance_with_strategy (orchestrator.py lines
186-216): build the suggestions list in order, join with a single
space, and fall back to a generic instruction when the join is empty.
The Python test `content_review and content_review.get(...)` reduces to
non-emptiness of the suggested-actions list: a falsy dictionary cannot
hold a non-empty list. -/
def compose_guidance_with_strategy (base_guidance : String)
    (content_review : ContentReview) (bias_review : BiasReview)
    (strategy : RetryStrategy) : String :=
  let hdr := strategyHeader strategy
  let s1 : List String := if hdr = "" then [] else [hdr]
  let s2 := if base_guidance = "" then s1 else s1 ++ [base_guidance]
  let s3 :=
    if content_review.suggested_actions = [] then s2
    else s2 ++ ["Reviewer actions: " ++ String.intercalate ", " content_review.suggested_actions]
  let s4 :=
    if bias_review.raw = [] then s3
    else s3 ++ ["Bias adjustments: " ++ String.intercalate " | " bias_review.raw]
  let out := String.intercalate " " s4
  if out = "" then "Rewrite for clarity and inclusivity." else out

/-- The guidance composition as the specification words it: concatenate,
in this order, the strategy header, the prior guidance, the joined
reviewer actions and the joined bias reasons, keeping only the
non-empty components; if everything is empty return the generic
rewrite instruction.  Each component is rendered exactly as the source
renders it, so this definition differs from the source only in how the
conditional concatenation is phrased. -/
def guidance_spec (base_guidance : String) (content_review : ContentReview)
    (bias_review : BiasReview) (strategy : RetryStrategy) : String :=
  let parts : List String :=
    [strategyHeader strategy,
     base_guidance,
     if content_review.suggested_actions = [] then ""
       else "Reviewer actions: " ++ String.intercalate ", " content_review.suggested_actions,
     if bias_review.raw = [] then ""
       else "Bias adjustments: " ++ String.intercalate " | " bias_review.raw]
  let joined := String.intercalate " " (parts.filter (fun p => p ≠ ""))
  if joined = "" then "Rewrite for clarity and inclusivity." else joined

/-- The explanation-builder payload as consumed by
Orchestrator._safe_generate_narrative: narrative.get("explanation") and
narrative.get("analogies", []). -/
structure NarrativeOut where
  explanation : Option String
  analogies : List String
  deriving DecidableEq, Repr, Inhabited

/-- The fallback text of the except branch of _safe_generate_narrative
(orchestrator.py lines 261-264). -/
def fallback_on_error (concept_a concept_b : String) : String :=
  "Unable to generate detailed explanation at this time. " ++ concept_a
    ++ " and " ++ concept_b ++ " are related through conceptual bridges."

/-- The substitute text used when the explanation is empty or blank
(orchestrator.py lines 249-252). -/
def fallback_on_empty (concept_a concept_b : String) : String :=
  "The connection between " ++ concept_a ++ " and " ++ concept_b
    ++ " involves shared principles that bridge these concepts through their underlying mechanisms."

/-- Python `not str(explanations).strip()` for a string value: the strip
result is empty exactly when every character is whitespace (covering
the empty string as well). -/
def isBlank (s : String) : Bool := s.data.all Char.isWhitespace

/-- Orchestrator._safe_generate_narrative (orchestrator.py lines 218-265).
The first argument is the outcome of awaiting self.explainer.build:
an exception, None, or a payload dictionary (`narrative or empty-dict`
maps None to the empty payload).  The third component of the value
records whether metrics.record_agent_failure was called for the
explanation builder. -/
def safe_generate_narrative (outcome : Except Unit (Option NarrativeOut))
    (concept_a concept_b : String) : String × List String × Bool :=
  match outcome with
  | .error _ => (fallback_on_error concept_a concept_b, [], true)
  | .ok narrative =>
    let n := narrative.getD { explanation := none, analogies := [] }
    match n.explanation with
    | none => (fallback_on_empty concept_a concept_b, n.analogies, true)
    | some s =>
      if isBlank s then (fallback_on_empty concept_a concept_b, n.analogies, true)
      else (s, n.analogies, false)

/-- The connection dictionary: path, disciplines and strength
(src/agents/connection_finder.py). -/
structure Connection where
  path : List String
  disciplines : List String
  strength : Rat
  deriving DecidableEq, Repr, Inhabited

/-- The deterministic default ConnectionFinder.find returns when JSON
extraction fails (connection_finder.py lines 77-81). -/
def connection_fallback (concept_a concept_b : String) : Connection :=
  { path := [concept_a, "bridge concept", concept_b]
    disciplines := []
    strength := 1/2 }

/-- ConnectionFinder.find, steps 2-3 (connection_finder.py lines 72-84).
The parsed argument abstracts the model call plus extract_json: none
when extraction failed, otherwise the dictionary the model produced,
which the source returns unvalidated via parsed.get("connections", parsed). -/
def ConnectionFinder_find (parsed : Option Connection)
    (concept_a concept_b : String) : Connection :=
  match parsed with
  | none => connection_fallback concept_a concept_b
  | some c => c

/-- The cache key triple (orchestrator.py lines 268-269). -/
abbrev CacheKey := String × String × String

/-- Python str.lower applied per character (String.toLower written over
the character list so that it evaluates by kernel reduction). -/
def pyLower (s : String) : String := String.mk (s.data.map Char.toLower)

/-- Lowercased (concept_a, concept_b, level). -/
def cacheKeyOf (concept_a concept_b level : String) : CacheKey :=
  (pyLower concept_a, pyLower concept_b, pyLower level)

/-- OrderedDict lookup. -/
def lookupKey (k : CacheKey) : List (CacheKey × α) → Option α
  | [] => none
  | (k1, v) :: rest => if k1 = k then some v else lookupKey k rest

/-- Removing the entry of a key; OrderedDict assignment followed by
move_to_end is removal plus appending at the most-recent end. -/
def eraseKey (k : CacheKey) : List (CacheKey × α) → List (CacheKey × α)
  | [] => []
  | (k1, v) :: rest => if k1 = k then eraseKey k rest else (k1, v) :: eraseKey k rest

/-- _LRUCache (orchestrator.py lines 106-123).  The ordered dictionary is
a list of entries, least recently used first. -/
structure LRUCache (α : Type) where
  maxsize : Nat
  store : List (CacheKey × α)
  deriving DecidableEq, Repr

/-- _LRUCache.get: a miss leaves the store untouched; a hit moves the
entry to the most-recent end and returns a deep copy of the value
(a plain value here). -/
def LRUCache.get (c : LRUCache α) (k : CacheKey) : Option α × LRUCache α :=
  match lookupKey k c.store with
  | none => (none, c)
  | some v => (some v, { c with store := eraseKey k c.store ++ [(k, v)] })

/-- _LRUCache.set: store a deep copy at the most-recent end, then drop
the least-recent entry if the capacity is exceeded. -/
def LRUCache.set (c : LRUCache α) (k : CacheKey) (v : α) : LRUCache α :=
  let s1 := eraseKey k c.store ++ [(k, v)]
  if c.maxsize < s1.length then { c with store := s1.tail }
  else { c with store := s1 }

/-- A fresh cache; the maxsize default in the source is 32. -/
def LRUCache.empty (α : Type) (maxsize : Nat := 32) : LRUCache α :=
  { maxsize := maxsize, store := [] }

/-- The slice of MetricsCollector that the modelled pipeline paths touch:
cache hit and miss counters, record_retry entries, and the
explanation_builder failure counter. -/
structure Metrics where
  cache_hits : Nat
  cache_misses : Nat
  retry_records : List (Nat × Bool)
  explanation_failures : Nat
  deriving DecidableEq, Repr, Inhabited

/-- MetricsCollector.record_retry. -/
def recordRetry (m : Metrics) (count : Nat) (succeeded : Bool) : Metrics :=
  { m with retry_records := m.retry_records ++ [(count, succeeded)] }

/-- MetricsCollector.record_agent_failure for the explanation builder. -/
def recordExplFailure (m : Metrics) : Metrics :=
  { m with explanation_failures := m.explanation_failures + 1 }

/-- One metric record of the fairness report. -/
structure FairnessMetric where
  label : String
  value : Rat
  detail : String
  deriving DecidableEq, Repr, Inhabited

/-- The fairness report shape. -/
structure FairnessOut where
  overall : Rat
  metrics : List FairnessMetric
  deriving DecidableEq, Repr, Inhabited

/-- The Result dictionary assembled at orchestrator.py lines 424-439.
The three mitigation keys are present exactly when retry_count was
positive, hence Option fields. -/
structure Result where
  connections : Connection
  explanations : String
  analogies : List String
  bias_review : List String
  bias_flag : Bool
  content_review : ContentReview
  fairness : FairnessOut
  feedback_guidance : String
  progress : List String
  mitigated : Option Bool
  mitigation_guidance : Option String
  retry_strategy_used : Option String
  deriving DecidableEq, Repr, Inhabited

/-- The collaborators of one query, as the specification treats them:
external stages specified at their interfaces.  find, build, bias and
review are indexed by the pass number within the query (0 is the
initial pass, i is the i-th mitigation retry; find is indexed by the
cumulative call count).  fairnessEval stands for the local
FairnessAuditor.evaluate, a pure deterministic scorer none of whose
output values any claim observes; guidance is the feedback guidance
string prepare_context derives for the query. -/
structure Env where
  find : Nat → Connection
  build : Nat → Except Unit (Option NarrativeOut)
  bias : Nat → BiasReview
  review : Nat → ContentReview
  fairnessEval : Connection → String → List String → FairnessOut
  guidance : String

/-- Orchestrator state threaded across queries: the result cache, the
metrics collector, the persisted interaction log
(memory.save_interaction), and cumulative collaborator call counters. -/
structure St where
  cache : LRUCache Result
  metrics : Metrics
  memoryLog : List (Option String × String × String × Result)
  findCalls : Nat
  buildCalls : Nat
  reviewPasses : Nat
  deriving DecidableEq

/-- The mutable state of the mitigation loop (orchestrator.py lines
355-422) together with the trace counters it advances. -/
structure LoopSt where
  retryCount : Nat
  biasReview : BiasReview
  contentReview : ContentReview
  explanations : String
  analogies : List String
  mitigationGuidance : String
  timeline : List String
  fairness : FairnessOut
  metrics : Metrics
  buildCalls : Nat
  reviewPasses : Nat
  deriving DecidableEq

/-- One regeneration round of the mitigation loop body (orchestrator.py
lines 371-414): bump retry_count, pick the strategy for it, compose
the mitigation guidance, regenerate the narrative through the safe
wrapper at the new pass index, re-run both reviews at the new pass
index, recompute fairness, and append the two timeline entries. -/
def advancedState (env : Env) (concept_a concept_b : String)
    (connections : Connection) (s : LoopSt) : LoopSt :=
  let rc := s.retryCount + 1
  let strat := get_retry_strategy rc
  let mg := compose_guidance_with_strategy env.guidance s.contentReview s.biasReview strat
  let nb := safe_generate_narrative (env.build rc) concept_a concept_b
  { retryCount := rc
    biasReview := env.bias rc
    contentReview := env.review rc
    explanations := nb.1
    analogies := nb.2.1
    mitigationGuidance := mg
    timeline := s.timeline ++ ["narrative", "review"]
    fairness := env.fairnessEval connections nb.1 nb.2.1
    metrics := if nb.2.2 then recordExplFailure s.metrics else s.metrics
    buildCalls := s.buildCalls + 1
    reviewPasses := s.reviewPasses + 1 }

/-- metrics.record_retry(retry_count, succeeded) applied to the loop
state. -/
def recordRetrySt (s : LoopSt) (succeeded : Bool) : LoopSt :=
  { s with metrics := recordRetry s.metrics s.retryCount succeeded }

/-- The abort branch of the loop (orchestrator.py lines 361-369): append
the mitigation_aborted timeline entry and record the failed retries. -/
def abortedState (s : LoopSt) : LoopSt :=
  { s with timeline := s.timeline ++ ["mitigation_aborted"],
           metrics := recordRetry s.metrics s.retryCount false }

/-- The mitigation loop (orchestrator.py lines 360-422).  Each round: if
the trigger is clear, leave; if the retry budget is spent, stop through
the abort branch; otherwise run one regeneration round and either
record a successful retry and stop, or continue.  Termination is
forced by the retry budget: every recursive call increments
retryCount, which the guard bounds by MAX_RETRIES. -/
def mitigationLoop (env : Env) (concept_a concept_b : String)
    (connections : Connection) (s : LoopSt) : LoopSt :=
  if mitigationTriggered s.biasReview s.contentReview = false then s
  else if MAX_RETRIES ≤ s.retryCount then abortedState s
  else
    let s1 := advancedState env concept_a concept_b connections s
    if mitigationTriggered s1.biasReview s1.contentReview = false then
      recordRetrySt s1 true
    else
      mitigationLoop env concept_a concept_b connections s1
termination_by MAX_RETRIES + 1 - s.retryCount
decreasing_by
  simp only [advancedState]
  simp only [MAX_RETRIES] at *
  omega

/-- The loop state after the initial pass of the pipeline (orchestrator.py
lines 282-358): the four initial timeline stages, the initial narrative
from the safe wrapper with pass index 0, the initial parallel reviews
with pass index 0, the fairness report, retry_count 0 and empty
mitigation guidance. -/
def initialLoopState (env : Env) (concept_a concept_b : String)
    (connections : Connection) (st : St) : LoopSt :=
  let nb := safe_generate_narrative (env.build 0) concept_a concept_b
  let m0 := { st.metrics with cache_misses := st.metrics.cache_misses + 1 }
  { retryCount := 0
    biasReview := env.bias 0
    contentReview := env.review 0
    explanations := nb.1
    analogies := nb.2.1
    mitigationGuidance := ""
    timeline := ["context", "connection", "narrative", "review"]
    fairness := env.fairnessEval connections nb.1 nb.2.1
    metrics := if nb.2.2 then recordExplFailure m0 else m0
    buildCalls := st.buildCalls + 1
    reviewPasses := st.reviewPasses + 1 }

/-- The cache-miss body of Orchestrator.process_query_async
(orchestrator.py lines 279-443): record the miss, prepare context,
find the connection, generate and review, run the mitigation loop,
assemble the Result with the optional mitigation keys, persist the
interaction and insert the result into the cache. -/
def run_pipeline (env : Env) (concept_a concept_b level : String)
    (session_id : Option String) (st : St) : Result × St :=
  let connections := env.find st.findCalls
  let sF := mitigationLoop env concept_a concept_b connections
    (initialLoopState env concept_a concept_b connections st)
  let result : Result :=
    { connections := connections
      explanations := sF.explanations
      analogies := sF.analogies
      bias_review := sF.biasReview.raw
      bias_flag := sF.biasReview.has_bias
      content_review := sF.contentReview
      fairness := sF.fairness
      feedback_guidance := env.guidance
      progress := sF.timeline
      mitigated := if 0 < sF.retryCount then some true else none
      mitigation_guidance := if 0 < sF.retryCount then some sF.mitigationGuidance else none
      retry_strategy_used :=
        if 0 < sF.retryCount then some (get_retry_strategy sF.retryCount).value else none }
  (result,
    { cache := st.cache.set (cacheKeyOf concept_a concept_b level) result
      metrics := sF.metrics
      memoryLog := st.memoryLog ++ [(session_id, concept_a, concept_b, result)]
      findCalls := st.findCalls + 1
      buildCalls := sF.buildCalls
      reviewPasses := sF.reviewPasses })

/-- Orchestrator.process_query_async (orchestrator.py lines 267-443).
On a hit the deep copy of the cached result is returned after the
interaction is still recorded against session history and the
cache-hit metric bumped, and no further stage runs; every stored
result is a non-empty dictionary, so Python truthiness of the cached
value coincides with the Option match. -/
def process_query_async (env : Env) (concept_a concept_b level : String)
    (session_id : Option String) (st : St) : Result × St :=
  match (st.cache.get (cacheKeyOf concept_a concept_b level)).1 with
  | some cached =>
    (cached,
      { st with
        cache := (st.cache.get (cacheKeyOf concept_a concept_b level)).2
        metrics := { st.metrics with cache_hits := st.metrics.cache_hits + 1 }
        memoryLog := st.memoryLog ++ [(session_id, concept_a, concept_b, cached)] })
  | none => run_pipeline env concept_a concept_b level session_id st

/-- Parameter names of ContentReviewer.evaluate, excluding self
(src/agents/content_reviewer.py line 25). -/
def contentReviewerEvaluateParams : List String := ["bundle", "level"]

/-- Keyword argument names the orchestrator supplies when invoking
self.reviewer.evaluate, the bundle being passed positionally
(orchestrator.py lines 335-341 and 399-405). -/
def orchestratorEvaluateKeywords : List String :=
  ["level", "profile", "concept_a", "concept_b"]

/-- Python call binding for a function without a keyword catch-all:
every keyword argument must name a declared parameter, otherwise the
call raises TypeError. -/
def pythonCallBinds (params keywords : List String) : Bool :=
  keywords.all (fun kw => params.contains kw)

/-- A connection stub for concrete scenarios, mirroring the stub used by
the repository test suite. -/
def stubConnection : Connection :=
  { path := ["A", "B"], disciplines := ["cs", "math"], strength := 9/10 }

/-- Well-behaved collaborator stubs: connection found, narrative
produced, no bias, aligned content. -/
def stubEnvBase : Env :=
  { find := fun _ => stubConnection
    build := fun _ => .ok (some { explanation := some "Test explanation", analogies := ["analogy1"] })
    bias := fun _ => { has_bias := false, raw := [] }
    review := fun _ => { level_alignment := some true, suggested_actions := [] }
    fairnessEval := fun _ _ _ => default
    guidance := "" }

/-- A bias-review stub that flags bias on the first two passes and is
clean from the third pass on. -/
def failTwiceEnv : Env :=
  { stubEnvBase with
    bias := fun i =>
      if i < 2 then { has_bias := true, raw := ["Issue"] }
      else { has_bias := false, raw := [] } }

/-- A bias-review stub that always flags bias. -/
def alwaysBiasEnv : Env :=
  { stubEnvBase with
    bias := fun _ => { has_bias := true, raw := ["Persistent issue"] } }

/-- A fresh orchestrator state: empty cache of the default capacity,
zeroed metrics, empty history. -/
def emptySt : St :=
  { cache := LRUCache.empty Result
    metrics := { cache_hits := 0, cache_misses := 0, retry_records := [], explanation_failures := 0 }
    memoryLog := []
    findCalls := 0
    buildCalls := 0
    reviewPasses := 0 }

/-! Loop unfolding lemmas: the four ways one pass of the mitigation loop
can go, phrased against the step functions above. -/

theorem mitigationLoop_done (env : Env) (a b : String) (conn : Connection) (s : LoopSt)
    (h : mitigationTriggered s.biasReview s.contentReview = false) :
    mitigationLoop env a b conn s = s := by
  rw [mitigationLoop.eq_def]
  simp [h]

theorem mitigationLoop_abort (env : Env) (a b : String) (conn : Connection) (s : LoopSt)
    (h1 : mitigationTriggered s.biasReview s.contentReview = true)
    (h2 : MAX_RETRIES ≤ s.retryCount) :
    mitigationLoop env a b conn s = abortedState s := by
  rw [mitigationLoop.eq_def]
  simp [h1, h2]

theorem mitigationLoop_round_done (env : Env) (a b : String) (conn : Connection) (s : LoopSt)
    (h1 : mitigationTriggered s.biasReview s.contentReview = true)
    (h2 : s.retryCount < MAX_RETRIES)
    (h3 : mitigationTriggered (env.bias (s.retryCount + 1)) (env.review (s.retryCount + 1)) = false) :
    mitigationLoop env a b conn s = recordRetrySt (advancedState env a b conn s) true := by
  have hc : mitigationTriggered (advancedState env a b conn s).biasReview
      (advancedState env a b conn s).contentReview = false := h3
  rw [mitigationLoop.eq_def]
  simp [h1, Nat.not_le.mpr h2, hc]

theorem mitigationLoop_round_continue (env : Env) (a b : String) (conn : Connection) (s : LoopSt)
    (h1 : mitigationTriggered s.biasReview s.contentReview = true)
    (h2 : s.retryCount < MAX_RETRIES)
    (h3 : mitigationTriggered (env.bias (s.retryCount + 1)) (env.review (s.retryCount + 1)) = true) :
    mitigationLoop env a b conn s = mitigationLoop env a b conn (advancedState env a b conn s) := by
  have hc : mitigationTriggered (advancedState env a b conn s).biasReview
      (advancedState env a b conn s).contentReview = true := h3
  conv_lhs => rw [mitigationLoop.eq_def]
  simp [h1, Nat.not_le.mpr h2, hc]

/-- Retry budget and regeneration count, together, by induction on the
remaining budget: the loop never leaves the retry budget behind, and
every regeneration attempt accounts for exactly one retry. -/
theorem mitigationLoop_bounds_aux (env : Env) (a b : String) (conn : Connection) :
    ∀ n s, MAX_RETRIES + 1 - s.retryCount ≤ n →
      (mitigationLoop env a b conn s).retryCount ≤ max s.retryCount MAX_RETRIES ∧
      (mitigationLoop env a b conn s).buildCalls + s.retryCount
        = s.buildCalls + (mitigationLoop env a b conn s).retryCount := by
  intro n
  induction n with
  | zero =>
    intro s hs
    have hrc : MAX_RETRIES ≤ s.retryCount := by omega
    by_cases h : mitigationTriggered s.biasReview s.contentReview = false
    · rw [mitigationLoop_done env a b conn s h]
      exact ⟨Nat.le_max_left _ _, by omega⟩
    · rw [mitigationLoop_abort env a b conn s (by simpa using h) hrc]
      have e1 : (abortedState s).retryCount = s.retryCount := rfl
      have e2 : (abortedState s).buildCalls = s.buildCalls := rfl
      exact ⟨by rw [e1]; exact Nat.le_max_left _ _, by omega⟩
  | succ n ih =>
    intro s hs
    by_cases h : mitigationTriggered s.biasReview s.contentReview = false
    · rw [mitigationLoop_done env a b conn s h]
      exact ⟨Nat.le_max_left _ _, by omega⟩
    · by_cases hrc : MAX_RETRIES ≤ s.retryCount
      · rw [mitigationLoop_abort env a b conn s (by simpa using h) hrc]
        have e1 : (abortedState s).retryCount = s.retryCount := rfl
        have e2 : (abortedState s).buildCalls = s.buildCalls := rfl
        exact ⟨by rw [e1]; exact Nat.le_max_left _ _, by omega⟩
      · have h2 : s.retryCount < MAX_RETRIES := by omega
        by_cases h3 : mitigationTriggered (env.bias (s.retryCount + 1))
            (env.review (s.retryCount + 1)) = false
        · rw [mitigationLoop_round_done env a b conn s (by simpa using h) h2 h3]
          have e1 : (recordRetrySt (advancedState env a b conn s) true).retryCount
              = s.retryCount + 1 := rfl
          have e2 : (recordRetrySt (advancedState env a b conn s) true).buildCalls
              = s.buildCalls + 1 := rfl
          refine ⟨?_, by omega⟩
          rw [e1]
          omega
        · rw [mitigationLoop_round_continue env a b conn s (by simpa using h) h2
            (by simpa using h3)]
          have hadv : (advancedState env a b conn s).retryCount = s.retryCount + 1 := rfl
          have hadvb : (advancedState env a b conn s).buildCalls = s.buildCalls + 1 := rfl
          have hmeas : MAX_RETRIES + 1 - (advancedState env a b conn s).retryCount ≤ n := by
            omega
          obtain ⟨ih1, ih2⟩ := ih (advancedState env a b conn s) hmeas
          exact ⟨by omega, by omega⟩

/-! Cache bookkeeping lemmas. -/

theorem eraseKey_of_lookup_none (k : CacheKey) (l : List (CacheKey × α))
    (h : lookupKey k l = none) : eraseKey k l = l := by
  induction l with
  | nil => rfl
  | cons hd tl ih =>
    obtain ⟨k1, v⟩ := hd
    by_cases hk : k1 = k
    · simp [lookupKey, hk] at h
    · simp [eraseKey, hk]
      apply ih
      simpa [lookupKey, hk] using h

theorem lookupKey_append_left_none (k : CacheKey) (l1 l2 : List (CacheKey × α))
    (h : lookupKey k l1 = none) : lookupKey k (l1 ++ l2) = lookupKey k l2 := by
  induction l1 with
  | nil => rfl
  | cons hd tl ih =>
    obtain ⟨k1, v⟩ := hd
    by_cases hk : k1 = k
    · simp [lookupKey, hk] at h
    · simp [lookupKey, hk] at h ⊢
      exact ih h

theorem lookupKey_tail_none (k : CacheKey) (l : List (CacheKey × α))
    (h : lookupKey k l = none) : lookupKey k l.tail = none := by
  cases l with
  | nil => rfl
  | cons hd tl =>
    obtain ⟨k1, v⟩ := hd
    by_cases hk : k1 = k
    · simp [lookupKey, hk] at h
    · simpa [lookupKey, hk] using h

theorem lookupKey_eraseKey_none (k k2 : CacheKey) (l : List (CacheKey × α))
    (h : lookupKey k2 l = none) : lookupKey k2 (eraseKey k l) = none := by
  induction l with
  | nil => rfl
  | cons hd tl ih =>
    obtain ⟨k1, v⟩ := hd
    by_cases hk2 : k1 = k2
    · simp [lookupKey, hk2] at h
    · have htl : lookupKey k2 tl = none := by simpa [lookupKey, hk2] using h
      by_cases hk : k1 = k
      · simpa [eraseKey, hk] using ih htl
      · simpa [eraseKey, hk, lookupKey, hk2] using ih htl

theorem eraseKey_length_le (k : CacheKey) (l : List (CacheKey × α)) :
    (eraseKey k l).length ≤ l.length := by
  induction l with
  | nil => exact Nat.le_refl 0
  | cons hd tl ih =>
    obtain ⟨k1, v⟩ := hd
    by_cases hk : k1 = k
    · simp [eraseKey, hk]
      omega
    · simp [eraseKey, hk]
      omega

/-- After inserting a previously absent key into a cache of capacity at
least one, the key is present with the inserted value. -/
theorem lookup_set_same (c : LRUCache α) (k : CacheKey) (v : α)
    (habs : lookupKey k c.store = none) (hcap : 1 ≤ c.maxsize) :
    lookupKey k (c.set k v).store = some v := by
  unfold LRUCache.set
  rw [eraseKey_of_lookup_none k c.store habs]
  by_cases hlen : c.maxsize < (c.store ++ [(k, v)]).length
  · simp only [hlen, if_true]
    cases hstore : c.store with
    | nil =>
      rw [hstore] at hlen
      simp at hlen
      omega
    | cons hd tl =>
      have hhd : lookupKey k (hd :: tl) = none := by rw [← hstore]; exact habs
      obtain ⟨k1, v1⟩ := hd
      by_cases hk : k1 = k
      · simp [lookupKey, hk] at hhd
      · have htl : lookupKey k tl = none := by simpa [lookupKey, hk] using hhd
        simp only [List.cons_append, List.tail_cons]
        rw [lookupKey_append_left_none k tl [(k, v)] htl]
        simp [lookupKey]
  · simp only [hlen, if_false]
    rw [lookupKey_append_left_none k c.store [(k, v)] habs]
    simp [lookupKey]

/-- Inserting one key cannot make a different absent key present. -/
theorem lookup_set_other (c : LRUCache α) (k k2 : CacheKey) (v : α)
    (habs : lookupKey k2 c.store = none) (hne : k ≠ k2) :
    lookupKey k2 (c.set k v).store = none := by
  unfold LRUCache.set
  have h1 : lookupKey k2 (eraseKey k c.store ++ [(k, v)]) = none := by
    rw [lookupKey_append_left_none k2 (eraseKey k c.store) [(k, v)]
      (lookupKey_eraseKey_none k k2 c.store habs)]
    simp [lookupKey, hne]
  by_cases hlen : c.maxsize < (eraseKey k c.store ++ [(k, v)]).length
  · simp only [hlen, if_true]
    exact lookupKey_tail_none k2 _ h1
  · simpa only [hlen, if_false] using h1

/-! Pipeline entry lemmas: the two branches of process_query_async. -/

theorem process_hit (env : Env) (a b level : String) (sid : Option String) (st : St)
    (c : Result) (h : (st.cache.get (cacheKeyOf a b level)).1 = some c) :
    process_query_async env a b level sid st =
      (c, { st with
            cache := (st.cache.get (cacheKeyOf a b level)).2
            metrics := { st.metrics with cache_hits := st.metrics.cache_hits + 1 }
            memoryLog := st.memoryLog ++ [(sid, a, b, c)] }) := by
  unfold process_query_async
  rw [h]

theorem process_miss (env : Env) (a b level : String) (sid : Option String) (st : St)
    (h : (st.cache.get (cacheKeyOf a b level)).1 = none) :
    process_query_async env a b level sid st = run_pipeline env a b level sid st := by
  unfold process_query_async
  rw [h]

/-! String helpers. -/

theorem string_length_zero (s : String) (h : s.length = 0) : s = "" := by
  obtain ⟨data⟩ := s
  simp only [String.length] at h
  rw [List.length_eq_zero] at h
  rw [h]

theorem append_left_ne_empty (s t : String) (h : s ≠ "") : s ++ t ≠ "" := by
  intro he
  apply h
  have hl := congrArg String.length he
  rw [String.length_append] at hl
  exact string_length_zero s (by simpa using Nat.eq_zero_of_add_eq_zero_right hl)

theorem append_right_ne_empty (s t : String) (h : t ≠ "") : s ++ t ≠ "" := by
  intro he
  apply h
  have hl := congrArg String.length he
  rw [String.length_append] at hl
  exact string_length_zero t (by simpa using Nat.eq_zero_of_add_eq_zero_left hl)

/-- C7.  Mitigation guidance composition concatenates, in order, the
strategy header, the prior guidance, the joined reviewer actions and
the joined bias reasons, and returns the generic rewrite instruction
exactly when that concatenation is empty: the source composition
coincides with the composition spelled out the way the specification
words it, for every input. -/
theorem C7_guidance_composition (base_guidance : String) (content_review : ContentReview)
    (bias_review : BiasReview) (strategy : RetryStrategy) :
    compose_guidance_with_strategy base_guidance content_review bias_review strategy
      = guidance_spec base_guidance content_review bias_review strategy := by
  have hra : "Reviewer actions: "
      ++ String.intercalate ", " content_review.suggested_actions ≠ "" :=
    append_left_ne_empty _ _ (by decide)
  have hba : "Bias adjustments: " ++ String.intercalate " | " bias_review.raw ≠ "" :=
    append_left_ne_empty _ _ (by decide)
  unfold compose_guidance_with_strategy guidance_spec
  by_cases hh : strategyHeader strategy = "" <;>
    by_cases hb : base_guidance = "" <;>
      by_cases ha : content_review.suggested_actions = [] <;>
        by_cases hr : bias_review.raw = [] <;>
          simp [hh, hb, ha, hr, hra, hba, List.filter]

/-- C5 counterexample: the deterministic default connection returned on
JSON-extraction failure has a path of length 3 but an empty
disciplines list, so the parallel-length invariant fails on it. -/
theorem C5_counterexample :
    (ConnectionFinder_find none "Gravity" "Orbits").path.length ≠
      (ConnectionFinder_find none "Gravity" "Orbits").disciplines.length := by
  decide

/-- C5 amended: the deterministic default returned when JSON extraction
fails is the path [A, bridge concept, B] of length 3 (within 2..8)
with strength 0.5 in [0,1] but with an empty disciplines list, so path
and disciplines lengths differ; a successfully extracted connection is
returned as-is, without any validation. -/
theorem C5_amended (a b : String) :
    (ConnectionFinder_find none a b).path = [a, "bridge concept", b] ∧
    (ConnectionFinder_find none a b).path.length = 3 ∧
    2 ≤ (ConnectionFinder_find none a b).path.length ∧
    (ConnectionFinder_find none a b).path.length ≤ 8 ∧
    (ConnectionFinder_find none a b).disciplines = [] ∧
    0 ≤ (ConnectionFinder_find none a b).strength ∧
    (ConnectionFinder_find none a b).strength ≤ 1 ∧
    ∀ parsed : Connection, ConnectionFinder_find (some parsed) a b = parsed := by
  refine ⟨rfl, rfl, ?_, ?_, rfl, ?_, ?_, fun parsed => rfl⟩
  · show (2 : Nat) ≤ 3
    norm_num
  · show (3 : Nat) ≤ 8
    norm_num
  · show (0 : Rat) ≤ 1/2
    norm_num
  · show (1/2 : Rat) ≤ 1
    norm_num

/-- C1: the orchestrator invokes the content reviewer with the keyword
arguments level, profile, concept_a and concept_b (the bundle being
positional), but ContentReviewer.evaluate declares only the parameters
bundle and level and no keyword catch-all, so the Python call binding
fails: every cache-missing query raises TypeError at the review stage
instead of producing a Result. -/
theorem C1_reviewer_kwargs_rejected :
    pythonCallBinds contentReviewerEvaluateParams orchestratorEvaluateKeywords = false := by
  decide

/-- C9 amended: the cache key is exactly the lowercased triple, and the
two concept orders give distinct cache keys precisely when the
concepts remain distinct after lowercasing. -/
theorem C9_amended (a b level : String) :
    cacheKeyOf a b level = (pyLower a, pyLower b, pyLower level) ∧
    (cacheKeyOf a b level = cacheKeyOf b a level ↔ pyLower a = pyLower b) := by
  refine ⟨rfl, ?_, ?_⟩
  · intro h
    have := congrArg Prod.fst h
    simpa [cacheKeyOf] using this
  · intro h
    simp [cacheKeyOf, h]

/-- C6 counterexample: the canned fallback returned on explainer
exception and the canned substitute used for an empty explanation are
two different strings, so they are not the same canned fallback. -/
theorem C6_counterexample :
    (safe_generate_narrative (.error ()) "Gravity" "Orbits").1 ≠
      (safe_generate_narrative
        (.ok (some { explanation := some "", analogies := [] })) "Gravity" "Orbits").1 := by
  decide

/-- C6 amended: on explainer exception the wrapper returns a canned
two-concept fallback with an empty analogy list; on success with an
empty or whitespace-only explanation it substitutes a second, distinct
canned fallback while preserving the returned analogies; both
fallbacks are functions of the concept names alone, non-empty, and
contain both input concept names. -/
theorem C6_amended (a b : String) (n : NarrativeOut)
    (hblank : n.explanation = none ∨ ∃ s, n.explanation = some s ∧ isBlank s = true) :
    safe_generate_narrative (.error ()) a b = (fallback_on_error a b, [], true) ∧
    safe_generate_narrative (.ok (some n)) a b = (fallback_on_empty a b, n.analogies, true) ∧
    fallback_on_error a b ≠ "" ∧
    fallback_on_empty a b ≠ "" ∧
    (∃ p q, fallback_on_error a b = p ++ a ++ q) ∧
    (∃ p q, fallback_on_error a b = p ++ b ++ q) ∧
    (∃ p q, fallback_on_empty a b = p ++ a ++ q) ∧
    (∃ p q, fallback_on_empty a b = p ++ b ++ q) := by
  refine ⟨rfl, ?_, ?_, ?_, ?_, ?_, ?_, ?_⟩
  · rcases hblank with h | ⟨s, hs, hb⟩
    · simp [safe_generate_narrative, h]
    · simp [safe_generate_narrative, hs, hb]
  · exact append_right_ne_empty _ _ (by decide)
  · exact append_right_ne_empty _ _ (by decide)
  · exact ⟨"Unable to generate detailed explanation at this time. ",
      " and " ++ b ++ " are related through conceptual bridges.",
      by simp [fallback_on_error, String.append_assoc]⟩
  · exact ⟨"Unable to generate detailed explanation at this time. " ++ a ++ " and ",
      " are related through conceptual bridges.", rfl⟩
  · exact ⟨"The connection between ",
      " and " ++ b
        ++ " involves shared principles that bridge these concepts through their underlying mechanisms.",
      by simp [fallback_on_empty, String.append_assoc]⟩
  · exact ⟨"The connection between " ++ a ++ " and ",
      " involves shared principles that bridge these concepts through their underlying mechanisms.",
      rfl⟩

/-- C6 witness: a whitespace-only explanation with one analogy is
replaced by the empty-content fallback with the analogy kept. -/
theorem C6_witness :
    safe_generate_narrative
        (.ok (some { explanation := some "   ", analogies := ["like a river"] }))
        "Heat" "Entropy"
      = (fallback_on_empty "Heat" "Entropy", ["like a river"], true) :=
  (C6_amended "Heat" "Entropy" { explanation := some "   ", analogies := ["like a river"] }
    (Or.inr ⟨"   ", rfl, by decide⟩)).2.1

/-- C2.  The retry strategy is a function of the attempt number
(attempt 1 EMPHASIS, attempt 2 SIMPLIFICATION, attempt 3 and later
RESTRUCTURE), and whenever the reviews trigger mitigation on the first
two review passes and clear on the third, the result of a
cache-missing query carries mitigated = true and
retry_strategy_used = simplification, with the narrative-build stage
invoked exactly 3 times. -/
theorem C2_retry_strategies_and_convergence :
    (get_retry_strategy 1 = RetryStrategy.emphasis ∧
     get_retry_strategy 2 = RetryStrategy.simplification ∧
     ∀ n, 3 ≤ n → get_retry_strategy n = RetryStrategy.restructure) ∧
    ∀ (env : Env) (st : St) (a b level : String) (sid : Option String),
      (st.cache.get (cacheKeyOf a b level)).1 = none →
      mitigationTriggered (env.bias 0) (env.review 0) = true →
      mitigationTriggered (env.bias 1) (env.review 1) = true →
      mitigationTriggered (env.bias 2) (env.review 2) = false →
      (process_query_async env a b level sid st).1.mitigated = some true ∧
      (process_query_async env a b level sid st).1.retry_strategy_used = some "simplification" ∧
      (process_query_async env a b level sid st).2.buildCalls = st.buildCalls + 3 := by
  constructor
  · refine ⟨rfl, rfl, fun n hn => ?_⟩
    unfold get_retry_strategy
    rw [if_neg (by omega), if_neg (by omega)]
  · intro env st a b level sid hmiss ht0 ht1 ht2
    rw [process_miss env a b level sid st hmiss]
    have h0 : mitigationTriggered
        (initialLoopState env a b (env.find st.findCalls) st).biasReview
        (initialLoopState env a b (env.find st.findCalls) st).contentReview = true := ht0
    have h0rc : (initialLoopState env a b (env.find st.findCalls) st).retryCount
        < MAX_RETRIES := by
      show 0 < MAX_RETRIES
      decide
    have l1 := mitigationLoop_round_continue env a b (env.find st.findCalls)
      (initialLoopState env a b (env.find st.findCalls) st) h0 h0rc ht1
    have h1 : mitigationTriggered
        (advancedState env a b (env.find st.findCalls)
          (initialLoopState env a b (env.find st.findCalls) st)).biasReview
        (advancedState env a b (env.find st.findCalls)
          (initialLoopState env a b (env.find st.findCalls) st)).contentReview = true := ht1
    have h1rc : (advancedState env a b (env.find st.findCalls)
        (initialLoopState env a b (env.find st.findCalls) st)).retryCount < MAX_RETRIES := by
      show 1 < MAX_RETRIES
      decide
    have l2 := mitigationLoop_round_done env a b (env.find st.findCalls)
      (advancedState env a b (env.find st.findCalls)
        (initialLoopState env a b (env.find st.findCalls) st)) h1 h1rc ht2
    have hfin := l1.trans l2
    refine ⟨?_, ?_, ?_⟩
    · show (if 0 < (mitigationLoop env a b (env.find st.findCalls)
          (initialLoopState env a b (env.find st.findCalls) st)).retryCount
          then some true else none) = some true
      rw [hfin]
      rfl
    · show (if 0 < (mitigationLoop env a b (env.find st.findCalls)
          (initialLoopState env a b (env.find st.findCalls) st)).retryCount
          then some (get_retry_strategy (mitigationLoop env a b (env.find st.findCalls)
            (initialLoopState env a b (env.find st.findCalls) st)).retryCount).value
          else none) = some "simplification"
      rw [hfin]
      rfl
    · show (mitigationLoop env a b (env.find st.findCalls)
          (initialLoopState env a b (env.find st.findCalls) st)).buildCalls
        = st.buildCalls + 3
      rw [hfin]
      rfl

/-- C2 witness: the convergence scenario run concretely with a
bias-review stub failing twice and then passing. -/
theorem C2_witness :
    (emptySt.cache.get (cacheKeyOf "A" "B" "intermediate")).1 = none ∧
    ((process_query_async failTwiceEnv "A" "B" "intermediate" none emptySt).1.mitigated
        = some true ∧
      (process_query_async failTwiceEnv "A" "B" "intermediate" none emptySt).1.retry_strategy_used
        = some "simplification" ∧
      (process_query_async failTwiceEnv "A" "B" "intermediate" none emptySt).2.buildCalls
        = emptySt.buildCalls + 3) :=
  ⟨rfl, C2_retry_strategies_and_convergence.2 failTwiceEnv emptySt "A" "B" "intermediate" none
    rfl (by decide) (by decide) (by decide)⟩

/-- C3.  The mitigation loop always terminates within the retry budget:
starting from the initial pass it performs at most MAX_RETRIES = 2
regeneration attempts beyond the initial narrative (first conjunct,
for arbitrary collaborators), and when the bias review flags bias on
every pass, a cache-missing query stops after 3 total review passes
with bias_flag = true in the result and exactly one mitigation_aborted
timeline entry; the pipeline is a total function of its collaborator
outcomes, so no exception is raised. -/
theorem C3_mitigation_exhaustion :
    (∀ (env : Env) (a b : String) (conn : Connection) (st : St),
      (mitigationLoop env a b conn (initialLoopState env a b conn st)).retryCount ≤ MAX_RETRIES ∧
      (mitigationLoop env a b conn (initialLoopState env a b conn st)).buildCalls
        = st.buildCalls + 1
          + (mitigationLoop env a b conn (initialLoopState env a b conn st)).retryCount) ∧
    ∀ (env : Env) (st : St) (a b level : String) (sid : Option String),
      (st.cache.get (cacheKeyOf a b level)).1 = none →
      (∀ i, (env.bias i).has_bias = true) →
      (process_query_async env a b level sid st).1.bias_flag = true ∧
      (process_query_async env a b level sid st).1.progress.count "mitigation_aborted" = 1 ∧
      (process_query_async env a b level sid st).2.buildCalls = st.buildCalls + 3 ∧
      (process_query_async env a b level sid st).2.reviewPasses = st.reviewPasses + 3 := by
  constructor
  · intro env a b conn st
    have h := mitigationLoop_bounds_aux env a b conn (MAX_RETRIES + 1)
      (initialLoopState env a b conn st) (Nat.sub_le _ _)
    have hrc : (initialLoopState env a b conn st).retryCount = 0 := rfl
    have hbc : (initialLoopState env a b conn st).buildCalls = st.buildCalls + 1 := rfl
    obtain ⟨h1, h2⟩ := h
    rw [hrc] at h1
    rw [hrc, hbc] at h2
    constructor
    · omega
    · omega
  · intro env st a b level sid hmiss hb
    have ht : ∀ i, mitigationTriggered (env.bias i) (env.review i) = true := by
      intro i
      simp [mitigationTriggered, hb i]
    rw [process_miss env a b level sid st hmiss]
    have h0 : mitigationTriggered
        (initialLoopState env a b (env.find st.findCalls) st).biasReview
        (initialLoopState env a b (env.find st.findCalls) st).contentReview = true := ht 0
    have h0rc : (initialLoopState env a b (env.find st.findCalls) st).retryCount
        < MAX_RETRIES := by
      show 0 < MAX_RETRIES
      decide
    have l1 := mitigationLoop_round_continue env a b (env.find st.findCalls)
      (initialLoopState env a b (env.find st.findCalls) st) h0 h0rc (ht 1)
    have h1 : mitigationTriggered
        (advancedState env a b (env.find st.findCalls)
          (initialLoopState env a b (env.find st.findCalls) st)).biasReview
        (advancedState env a b (env.find st.findCalls)
          (initialLoopState env a b (env.find st.findCalls) st)).contentReview = true := ht 1
    have h1rc : (advancedState env a b (env.find st.findCalls)
        (initialLoopState env a b (env.find st.findCalls) st)).retryCount < MAX_RETRIES := by
      show 1 < MAX_RETRIES
      decide
    have l2 := mitigationLoop_round_continue env a b (env.find st.findCalls)
      (advancedState env a b (env.find st.findCalls)
        (initialLoopState env a b (env.find st.findCalls) st)) h1 h1rc (ht 2)
    have h2t : mitigationTriggered
        (advancedState env a b (env.find st.findCalls)
          (advancedState env a b (env.find st.findCalls)
            (initialLoopState env a b (env.find st.findCalls) st))).biasReview
        (advancedState env a b (env.find st.findCalls)
          (advancedState env a b (env.find st.findCalls)
            (initialLoopState env a b (env.find st.findCalls) st))).contentReview = true := ht 2
    have h2rc : MAX_RETRIES ≤ (advancedState env a b (env.find st.findCalls)
        (advancedState env a b (env.find st.findCalls)
          (initialLoopState env a b (env.find st.findCalls) st))).retryCount := by
      show MAX_RETRIES ≤ 2
      decide
    have l3 := mitigationLoop_abort env a b (env.find st.findCalls)
      (advancedState env a b (env.find st.findCalls)
        (advancedState env a b (env.find st.findCalls)
          (initialLoopState env a b (env.find st.findCalls) st))) h2t h2rc
    have hfin := (l1.trans l2).trans l3
    refine ⟨?_, ?_, ?_, ?_⟩
    · show (mitigationLoop env a b (env.find st.findCalls)
          (initialLoopState env a b (env.find st.findCalls) st)).biasReview.has_bias = true
      rw [hfin]
      exact hb 2
    · show (mitigationLoop env a b (env.find st.findCalls)
          (initialLoopState env a b (env.find st.findCalls) st)).timeline.count
          "mitigation_aborted" = 1
      rw [hfin]
      rfl
    · show (mitigationLoop env a b (env.find st.findCalls)
          (initialLoopState env a b (env.find st.findCalls) st)).buildCalls
        = st.buildCalls + 3
      rw [hfin]
      rfl
    · show (mitigationLoop env a b (env.find st.findCalls)
          (initialLoopState env a b (env.find st.findCalls) st)).reviewPasses
        = st.reviewPasses + 3
      rw [hfin]
      rfl

/-- C3 witness: the exhaustion scenario run concretely with an
always-biased review stub. -/
theorem C3_witness :
    (emptySt.cache.get (cacheKeyOf "A" "B" "intermediate")).1 = none ∧
    (∀ i, (alwaysBiasEnv.bias i).has_bias = true) ∧
    ((process_query_async alwaysBiasEnv "A" "B" "intermediate" none emptySt).1.bias_flag = true ∧
      (process_query_async alwaysBiasEnv "A" "B" "intermediate" none emptySt).1.progress.count
        "mitigation_aborted" = 1 ∧
      (process_query_async alwaysBiasEnv "A" "B" "intermediate" none emptySt).2.buildCalls
        = emptySt.buildCalls + 3 ∧
      (process_query_async alwaysBiasEnv "A" "B" "intermediate" none emptySt).2.reviewPasses
        = emptySt.reviewPasses + 3) :=
  ⟨rfl, fun _ => rfl,
    C3_mitigation_exhaustion.2 alwaysBiasEnv emptySt "A" "B" "intermediate" none rfl
      (fun _ => rfl)⟩

/-- C10.  For a cache-missing query, whenever at least one mitigation
retry ran (equivalently, the initial reviews triggered mitigation) the
result carries mitigated = true, retry_strategy_used equal to the
strategy of the last attempted retry rc, and mitigation_guidance equal
to the guidance composed for that retry from the reviews of the
preceding pass; this holds also when the budget was exhausted.  The
number rc is pinned to the retries that actually ran: the narrative
build counter advanced by exactly 1 + rc (the initial build plus one
regeneration per retry), so rc is the last attempted retry, not an
arbitrary one.  When no retry ran, all three keys are absent. -/
theorem C10_mitigation_metadata (env : Env) (st : St) (a b level : String)
    (sid : Option String)
    (hmiss : (st.cache.get (cacheKeyOf a b level)).1 = none) :
    (mitigationTriggered (env.bias 0) (env.review 0) = false →
      (process_query_async env a b level sid st).1.mitigated = none ∧
      (process_query_async env a b level sid st).1.mitigation_guidance = none ∧
      (process_query_async env a b level sid st).1.retry_strategy_used = none) ∧
    (mitigationTriggered (env.bias 0) (env.review 0) = true →
      ∃ rc, 1 ≤ rc ∧ rc ≤ MAX_RETRIES ∧
        (process_query_async env a b level sid st).2.buildCalls = st.buildCalls + 1 + rc ∧
        (process_query_async env a b level sid st).1.mitigated = some true ∧
        (process_query_async env a b level sid st).1.retry_strategy_used
          = some (get_retry_strategy rc).value ∧
        (process_query_async env a b level sid st).1.mitigation_guidance
          = some (compose_guidance_with_strategy env.guidance (env.review (rc - 1))
              (env.bias (rc - 1)) (get_retry_strategy rc))) := by
  rw [process_miss env a b level sid st hmiss]
  constructor
  · intro ht0
    have h0 : mitigationTriggered
        (initialLoopState env a b (env.find st.findCalls) st).biasReview
        (initialLoopState env a b (env.find st.findCalls) st).contentReview = false := ht0
    have hfin := mitigationLoop_done env a b (env.find st.findCalls)
      (initialLoopState env a b (env.find st.findCalls) st) h0
    refine ⟨?_, ?_, ?_⟩
    · show (if 0 < (mitigationLoop env a b (env.find st.findCalls)
          (initialLoopState env a b (env.find st.findCalls) st)).retryCount
          then some true else none) = none
      rw [hfin]
      rfl
    · show (if 0 < (mitigationLoop env a b (env.find st.findCalls)
          (initialLoopState env a b (env.find st.findCalls) st)).retryCount
          then some (mitigationLoop env a b (env.find st.findCalls)
            (initialLoopState env a b (env.find st.findCalls) st)).mitigationGuidance
          else none) = none
      rw [hfin]
      rfl
    · show (if 0 < (mitigationLoop env a b (env.find st.findCalls)
          (initialLoopState env a b (env.find st.findCalls) st)).retryCount
          then some (get_retry_strategy (mitigationLoop env a b (env.find st.findCalls)
            (initialLoopState env a b (env.find st.findCalls) st)).retryCount).value
          else none) = none
      rw [hfin]
      rfl
  · intro ht0
    have h0 : mitigationTriggered
        (initialLoopState env a b (env.find st.findCalls) st).biasReview
        (initialLoopState env a b (env.find st.findCalls) st).contentReview = true := ht0
    have h0rc : (initialLoopState env a b (env.find st.findCalls) st).retryCount
        < MAX_RETRIES := by
      show 0 < MAX_RETRIES
      decide
    by_cases ht1 : mitigationTriggered (env.bias 1) (env.review 1) = false
    · have hfin := mitigationLoop_round_done env a b (env.find st.findCalls)
        (initialLoopState env a b (env.find st.findCalls) st) h0 h0rc ht1
      refine ⟨1, Nat.le_refl 1, by decide, ?_, ?_, ?_, ?_⟩
      · show (mitigationLoop env a b (env.find st.findCalls)
            (initialLoopState env a b (env.find st.findCalls) st)).buildCalls
          = st.buildCalls + 1 + 1
        rw [hfin]
        rfl
      · show (if 0 < (mitigationLoop env a b (env.find st.findCalls)
            (initialLoopState env a b (env.find st.findCalls) st)).retryCount
            then some true else none) = some true
        rw [hfin]
        rfl
      · show (if 0 < (mitigationLoop env a b (env.find st.findCalls)
            (initialLoopState env a b (env.find st.findCalls) st)).retryCount
            then some (get_retry_strategy (mitigationLoop env a b (env.find st.findCalls)
              (initialLoopState env a b (env.find st.findCalls) st)).retryCount).value
            else none) = some (get_retry_strategy 1).value
        rw [hfin]
        rfl
      · show (if 0 < (mitigationLoop env a b (env.find st.findCalls)
            (initialLoopState env a b (env.find st.findCalls) st)).retryCount
            then some (mitigationLoop env a b (env.find st.findCalls)
              (initialLoopState env a b (env.find st.findCalls) st)).mitigationGuidance
            else none)
          = some (compose_guidance_with_strategy env.guidance (env.review 0)
              (env.bias 0) (get_retry_strategy 1))
        rw [hfin]
        rfl
    · have ht1t : mitigationTriggered (env.bias 1) (env.review 1) = true := by
        simpa using ht1
      have l1 := mitigationLoop_round_continue env a b (env.find st.findCalls)
        (initialLoopState env a b (env.find st.findCalls) st) h0 h0rc ht1t
      have h1 : mitigationTriggered
          (advancedState env a b (env.find st.findCalls)
            (initialLoopState env a b (env.find st.findCalls) st)).biasReview
          (advancedState env a b (env.find st.findCalls)
            (initialLoopState env a b (env.find st.findCalls) st)).contentReview = true := ht1t
      have h1rc : (advancedState env a b (env.find st.findCalls)
          (initialLoopState env a b (env.find st.findCalls) st)).retryCount < MAX_RETRIES := by
        show 1 < MAX_RETRIES
        decide
      by_cases ht2 : mitigationTriggered (env.bias 2) (env.review 2) = false
      · have l2 := mitigationLoop_round_done env a b (env.find st.findCalls)
          (advancedState env a b (env.find st.findCalls)
            (initialLoopState env a b (env.find st.findCalls) st)) h1 h1rc ht2
        have hfin := l1.trans l2
        refine ⟨2, by decide, Nat.le_refl 2, ?_, ?_, ?_, ?_⟩
        · show (mitigationLoop env a b (env.find st.findCalls)
              (initialLoopState env a b (env.find st.findCalls) st)).buildCalls
            = st.buildCalls + 1 + 2
          rw [hfin]
          rfl
        · show (if 0 < (mitigationLoop env a b (env.find st.findCalls)
              (initialLoopState env a b (env.find st.findCalls) st)).retryCount
              then some true else none) = some true
          rw [hfin]
          rfl
        · show (if 0 < (mitigationLoop env a b (env.find st.findCalls)
              (initialLoopState env a b (env.find st.findCalls) st)).retryCount
              then some (get_retry_strategy (mitigationLoop env a b (env.find st.findCalls)
                (initialLoopState env a b (env.find st.findCalls) st)).retryCount).value
              else none) = some (get_retry_strategy 2).value
          rw [hfin]
          rfl
        · show (if 0 < (mitigationLoop env a b (env.find st.findCalls)
              (initialLoopState env a b (env.find st.findCalls) st)).retryCount
              then some (mitigationLoop env a b (env.find st.findCalls)
                (initialLoopState env a b (env.find st.findCalls) st)).mitigationGuidance
              else none)
            = some (compose_guidance_with_strategy env.guidance (env.review 1)
                (env.bias 1) (get_retry_strategy 2))
          rw [hfin]
          rfl
      · have ht2t : mitigationTriggered (env.bias 2) (env.review 2) = true := by
          simpa using ht2
        have h2t : mitigationTriggered
            (advancedState env a b (env.find st.findCalls)
              (advancedState env a b (env.find st.findCalls)
                (initialLoopState env a b (env.find st.findCalls) st))).biasReview
            (advancedState env a b (env.find st.findCalls)
              (advancedState env a b (env.find st.findCalls)
                (initialLoopState env a b (env.find st.findCalls) st))).contentReview
            = true := ht2t
        have h2rc : MAX_RETRIES ≤ (advancedState env a b (env.find st.findCalls)
            (advancedState env a b (env.find st.findCalls)
              (initialLoopState env a b (env.find st.findCalls) st))).retryCount := by
          show MAX_RETRIES ≤ 2
          decide
        have l2 := mitigationLoop_round_continue env a b (env.find st.findCalls)
          (advancedState env a b (env.find st.findCalls)
            (initialLoopState env a b (env.find st.findCalls) st)) h1 h1rc ht2t
        have l3 := mitigationLoop_abort env a b (env.find st.findCalls)
          (advancedState env a b (env.find st.findCalls)
            (advancedState env a b (env.find st.findCalls)
              (initialLoopState env a b (env.find st.findCalls) st))) h2t h2rc
        have hfin := (l1.trans l2).trans l3
        refine ⟨2, by decide, Nat.le_refl 2, ?_, ?_, ?_, ?_⟩
        · show (mitigationLoop env a b (env.find st.findCalls)
              (initialLoopState env a b (env.find st.findCalls) st)).buildCalls
            = st.buildCalls + 1 + 2
          rw [hfin]
          rfl
        · show (if 0 < (mitigationLoop env a b (env.find st.findCalls)
              (initialLoopState env a b (env.find st.findCalls) st)).retryCount
              then some true else none) = some true
          rw [hfin]
          rfl
        · show (if 0 < (mitigationLoop env a b (env.find st.findCalls)
              (initialLoopState env a b (env.find st.findCalls) st)).retryCount
              then some (get_retry_strategy (mitigationLoop env a b (env.find st.findCalls)
                (initialLoopState env a b (env.find st.findCalls) st)).retryCount).value
              else none) = some (get_retry_strategy 2).value
          rw [hfin]
          rfl
        · show (if 0 < (mitigationLoop env a b (env.find st.findCalls)
              (initialLoopState env a b (env.find st.findCalls) st)).retryCount
              then some (mitigationLoop env a b (env.find st.findCalls)
                (initialLoopState env a b (env.find st.findCalls) st)).mitigationGuidance
              else none)
            = some (compose_guidance_with_strategy env.guidance (env.review 1)
                (env.bias 1) (get_retry_strategy 2))
          rw [hfin]
          rfl

/-- C10 witness: both branches exercised concretely, the metadata-present
branch with the fail-twice stub (where the budget forces rc = 2, pinned
by the build counter) and the metadata-absent branch with the clean
stub. -/
theorem C10_witness :
    (emptySt.cache.get (cacheKeyOf "A" "B" "intermediate")).1 = none ∧
    mitigationTriggered (failTwiceEnv.bias 0) (failTwiceEnv.review 0) = true ∧
    mitigationTriggered (stubEnvBase.bias 0) (stubEnvBase.review 0) = false ∧
    (∃ rc, 1 ≤ rc ∧ rc ≤ MAX_RETRIES ∧
      (process_query_async failTwiceEnv "A" "B" "intermediate" none emptySt).2.buildCalls
        = emptySt.buildCalls + 1 + rc ∧
      (process_query_async failTwiceEnv "A" "B" "intermediate" none emptySt).1.mitigated
        = some true ∧
      (process_query_async failTwiceEnv "A" "B" "intermediate" none emptySt).1.retry_strategy_used
        = some (get_retry_strategy rc).value ∧
      (process_query_async failTwiceEnv "A" "B" "intermediate" none emptySt).1.mitigation_guidance
        = some (compose_guidance_with_strategy failTwiceEnv.guidance
            (failTwiceEnv.review (rc - 1)) (failTwiceEnv.bias (rc - 1))
            (get_retry_strategy rc))) ∧
    ((process_query_async stubEnvBase "A" "B" "intermediate" none emptySt).1.mitigated = none ∧
      (process_query_async stubEnvBase "A" "B" "intermediate" none emptySt).1.mitigation_guidance
        = none ∧
      (process_query_async stubEnvBase "A" "B" "intermediate" none emptySt).1.retry_strategy_used
        = none) :=
  ⟨rfl, by decide, by decide,
    (C10_mitigation_metadata failTwiceEnv emptySt "A" "B" "intermediate" none rfl).2 (by decide),
    (C10_mitigation_metadata stubEnvBase emptySt "A" "B" "intermediate" none rfl).1 (by decide)⟩

/-- C4.  Two identical queries with no intervening eviction: the second
call returns a value equal to the first result (the deep copy is value
passing), the path finder ran exactly once in total, the second call
records a cache-hit metric and still appends the interaction to
session history, and no further stage runs (narrative and review
counters unchanged). -/
theorem get_fst_eq (c : LRUCache α) (k : CacheKey) :
    (c.get k).1 = lookupKey k c.store := by
  unfold LRUCache.get
  cases lookupKey k c.store <;> rfl

theorem C4_idempotent_cache_hit (env : Env) (st : St) (a b level : String)
    (sid : Option String)
    (hmiss : (st.cache.get (cacheKeyOf a b level)).1 = none)
    (hcap : 1 ≤ st.cache.maxsize) :
    (process_query_async env a b level sid
        (process_query_async env a b level sid st).2).1
      = (process_query_async env a b level sid st).1 ∧
    (process_query_async env a b level sid
        (process_query_async env a b level sid st).2).2.findCalls = st.findCalls + 1 ∧
    (process_query_async env a b level sid
        (process_query_async env a b level sid st).2).2.metrics.cache_hits
      = (process_query_async env a b level sid st).2.metrics.cache_hits + 1 ∧
    (process_query_async env a b level sid
        (process_query_async env a b level sid st).2).2.buildCalls
      = (process_query_async env a b level sid st).2.buildCalls ∧
    (process_query_async env a b level sid
        (process_query_async env a b level sid st).2).2.reviewPasses
      = (process_query_async env a b level sid st).2.reviewPasses ∧
    (process_query_async env a b level sid
        (process_query_async env a b level sid st).2).2.memoryLog
      = (process_query_async env a b level sid st).2.memoryLog
          ++ [(sid, a, b, (process_query_async env a b level sid st).1)] := by
  rw [process_miss env a b level sid st hmiss]
  have hlk : lookupKey (cacheKeyOf a b level) st.cache.store = none := by
    rw [get_fst_eq] at hmiss
    exact hmiss
  have h2 : ((run_pipeline env a b level sid st).2.cache.get (cacheKeyOf a b level)).1
      = some (run_pipeline env a b level sid st).1 := by
    rw [get_fst_eq]
    show lookupKey (cacheKeyOf a b level)
        (st.cache.set (cacheKeyOf a b level) (run_pipeline env a b level sid st).1).store
      = some (run_pipeline env a b level sid st).1
    exact lookup_set_same st.cache _ _ hlk hcap
  rw [process_hit env a b level sid ((run_pipeline env a b level sid st).2)
    ((run_pipeline env a b level sid st).1) h2]
  exact ⟨rfl, rfl, rfl, rfl, rfl, rfl⟩

/-- C4 witness: the cache-hit idempotence scenario run concretely with
the clean collaborator stubs on a fresh state. -/
theorem C4_witness :
    (emptySt.cache.get (cacheKeyOf "A" "B" "intermediate")).1 = none ∧
    1 ≤ emptySt.cache.maxsize ∧
    ((process_query_async stubEnvBase "A" "B" "intermediate" none
        (process_query_async stubEnvBase "A" "B" "intermediate" none emptySt).2).1
      = (process_query_async stubEnvBase "A" "B" "intermediate" none emptySt).1 ∧
    (process_query_async stubEnvBase "A" "B" "intermediate" none
        (process_query_async stubEnvBase "A" "B" "intermediate" none emptySt).2).2.findCalls
      = emptySt.findCalls + 1 ∧
    (process_query_async stubEnvBase "A" "B" "intermediate" none
        (process_query_async stubEnvBase "A" "B" "intermediate" none emptySt).2).2.metrics.cache_hits
      = (process_query_async stubEnvBase "A" "B" "intermediate" none emptySt).2.metrics.cache_hits
          + 1 ∧
    (process_query_async stubEnvBase "A" "B" "intermediate" none
        (process_query_async stubEnvBase "A" "B" "intermediate" none emptySt).2).2.buildCalls
      = (process_query_async stubEnvBase "A" "B" "intermediate" none emptySt).2.buildCalls ∧
    (process_query_async stubEnvBase "A" "B" "intermediate" none
        (process_query_async stubEnvBase "A" "B" "intermediate" none emptySt).2).2.reviewPasses
      = (process_query_async stubEnvBase "A" "B" "intermediate" none emptySt).2.reviewPasses ∧
    (process_query_async stubEnvBase "A" "B" "intermediate" none
        (process_query_async stubEnvBase "A" "B" "intermediate" none emptySt).2).2.memoryLog
      = (process_query_async stubEnvBase "A" "B" "intermediate" none emptySt).2.memoryLog
          ++ [(none, "A", "B",
              (process_query_async stubEnvBase "A" "B" "intermediate" none emptySt).1)]) :=
  ⟨rfl, by decide,
    C4_idempotent_cache_hit stubEnvBase emptySt "A" "B" "intermediate" none rfl (by decide)⟩

/-- C8.  The LRU cache: the default capacity is 32; insertion never
grows the store past the capacity; when an insertion of an absent key
overflows a full cache, exactly the least-recently-used (front) entry
is evicted and the rest survive in order; a hit moves the entry to the
most-recently-used end; and filling a fresh capacity-2 cache with
three distinct keys evicts the oldest untouched key, whose subsequent
lookup misses while the two younger keys still hit. -/
theorem C8_lru_cache :
    (LRUCache.empty Result).maxsize = 32 ∧
    (∀ (c : LRUCache Result) (k : CacheKey) (v : Result),
      c.store.length ≤ c.maxsize → (c.set k v).store.length ≤ c.maxsize) ∧
    (∀ (c : LRUCache Result) (k0 : CacheKey) (v0 : Result) (rest : List (CacheKey × Result))
        (k : CacheKey) (v : Result),
      c.store = (k0, v0) :: rest → lookupKey k c.store = none →
      c.store.length = c.maxsize →
      (c.set k v).store = rest ++ [(k, v)]) ∧
    (∀ (c : LRUCache Result) (k : CacheKey) (v : Result),
      lookupKey k c.store = some v → ((c.get k).2).store.getLast? = some (k, v)) ∧
    (∀ (k1 k2 k3 : CacheKey) (v1 v2 v3 : Result),
      k1 ≠ k2 → k1 ≠ k3 → k2 ≠ k3 →
      lookupKey k1 ((((LRUCache.empty Result 2).set k1 v1).set k2 v2).set k3 v3).store
        = none ∧
      lookupKey k2 ((((LRUCache.empty Result 2).set k1 v1).set k2 v2).set k3 v3).store
        = some v2 ∧
      lookupKey k3 ((((LRUCache.empty Result 2).set k1 v1).set k2 v2).set k3 v3).store
        = some v3) := by
  refine ⟨rfl, ?_, ?_, ?_, ?_⟩
  · intro c k v h
    show (if c.maxsize < (eraseKey k c.store ++ [(k, v)]).length
        then { c with store := (eraseKey k c.store ++ [(k, v)]).tail }
        else { c with store := eraseKey k c.store ++ [(k, v)] }).store.length ≤ c.maxsize
    have he := eraseKey_length_le k c.store
    split
    · next hlt =>
      simp only [List.length_tail, List.length_append, List.length_cons, List.length_nil]
      omega
    · next hge =>
      simp only [List.length_append, List.length_cons, List.length_nil] at hge ⊢
      omega
  · intro c k0 v0 rest k v hst hlk hlen
    show (if c.maxsize < (eraseKey k c.store ++ [(k, v)]).length
        then { c with store := (eraseKey k c.store ++ [(k, v)]).tail }
        else { c with store := eraseKey k c.store ++ [(k, v)] }).store = rest ++ [(k, v)]
    rw [eraseKey_of_lookup_none k c.store hlk, hst]
    have hcond : c.maxsize < (((k0, v0) :: rest) ++ [(k, v)]).length := by
      simp only [List.length_append, List.length_cons, List.length_nil]
      rw [hst] at hlen
      simp only [List.length_cons] at hlen
      omega
    rw [if_pos hcond]
    simp
  · intro c k v h
    unfold LRUCache.get
    rw [h]
    exact List.getLast?_concat _
  · intro k1 k2 k3 v1 v2 v3 h12 h13 h23
    refine ⟨?_, ?_, ?_⟩ <;>
      simp [LRUCache.set, LRUCache.empty, eraseKey, lookupKey,
        h12, h13, h23, Ne.symm h12, Ne.symm h13, Ne.symm h23]

/-- C8 witness: the capacity bound, the exact LRU eviction, the
most-recently-used marking and the overfill scenario, each at concrete
keys and values. -/
theorem C8_witness :
    ((LRUCache.empty Result 2).set ("a", "a", "l") default).store.length
      ≤ (LRUCache.empty Result 2).maxsize ∧
    (({ maxsize := 1, store := [(("a", "a", "l"), default)] } : LRUCache Result).set
        ("b", "b", "l") default).store = [(("b", "b", "l"), (default : Result))] ∧
    ((({ maxsize := 1, store := [(("a", "a", "l"), default)] } : LRUCache Result).get
        ("a", "a", "l")).2).store.getLast? = some (("a", "a", "l"), (default : Result)) ∧
    lookupKey ("a", "a", "l")
      ((((LRUCache.empty Result 2).set ("a", "a", "l") default).set
        ("b", "b", "l") default).set ("c", "c", "l") default).store = none ∧
    lookupKey ("b", "b", "l")
      ((((LRUCache.empty Result 2).set ("a", "a", "l") default).set
        ("b", "b", "l") default).set ("c", "c", "l") default).store = some default ∧
    lookupKey ("c", "c", "l")
      ((((LRUCache.empty Result 2).set ("a", "a", "l") default).set
        ("b", "b", "l") default).set ("c", "c", "l") default).store = some default :=
  ⟨C8_lru_cache.2.1 (LRUCache.empty Result 2) ("a", "a", "l") default (by decide),
    C8_lru_cache.2.2.1 { maxsize := 1, store := [(("a", "a", "l"), default)] }
      ("a", "a", "l") default [] ("b", "b", "l") default rfl rfl rfl,
    C8_lru_cache.2.2.2.1 { maxsize := 1, store := [(("a", "a", "l"), default)] }
      ("a", "a", "l") default rfl,
    (C8_lru_cache.2.2.2.2 ("a", "a", "l") ("b", "b", "l") ("c", "c", "l")
      default default default (by decide) (by decide) (by decide)).1,
    (C8_lru_cache.2.2.2.2 ("a", "a", "l") ("b", "b", "l") ("c", "c", "l")
      default default default (by decide) (by decide) (by decide)).2.1,
    (C8_lru_cache.2.2.2.2 ("a", "a", "l") ("b", "b", "l") ("c", "c", "l")
      default default default (by decide) (by decide) (by decide)).2.2⟩

/-- C9 counterexample: Foo and foo are two distinct concept strings,
yet the swapped-order query is served from the cache entry written by
the first query: after processQuery(Foo, foo, beginner), the call
processQuery(foo, Foo, beginner) performs no second path-finder call
and records a cache hit, so the two orders do not use distinct cache
entries. -/
theorem C9_counterexample :
    "Foo" ≠ "foo" ∧
    (process_query_async stubEnvBase "foo" "Foo" "beginner" none
        (process_query_async stubEnvBase "Foo" "foo" "beginner" none emptySt).2).2.findCalls
      = 1 ∧
    (process_query_async stubEnvBase "foo" "Foo" "beginner" none
        (process_query_async stubEnvBase "Foo" "foo" "beginner" none emptySt).2).2.metrics.cache_hits
      = 1 := by
  have hkey : cacheKeyOf "foo" "Foo" "beginner" = cacheKeyOf "Foo" "foo" "beginner" := by
    decide
  have hmiss1 : (emptySt.cache.get (cacheKeyOf "Foo" "foo" "beginner")).1 = none := rfl
  rw [process_miss stubEnvBase "Foo" "foo" "beginner" none emptySt hmiss1]
  have hlk : lookupKey (cacheKeyOf "Foo" "foo" "beginner") emptySt.cache.store = none := rfl
  have h2 : ((run_pipeline stubEnvBase "Foo" "foo" "beginner" none emptySt).2.cache.get
      (cacheKeyOf "foo" "Foo" "beginner")).1
      = some (run_pipeline stubEnvBase "Foo" "foo" "beginner" none emptySt).1 := by
    rw [hkey, get_fst_eq]
    show lookupKey (cacheKeyOf "Foo" "foo" "beginner")
        (emptySt.cache.set (cacheKeyOf "Foo" "foo" "beginner")
          (run_pipeline stubEnvBase "Foo" "foo" "beginner" none emptySt).1).store
      = some (run_pipeline stubEnvBase "Foo" "foo" "beginner" none emptySt).1
    exact lookup_set_same emptySt.cache _ _ hlk (by decide)
  rw [process_hit stubEnvBase "foo" "Foo" "beginner" none
    ((run_pipeline stubEnvBase "Foo" "foo" "beginner" none emptySt).2)
    ((run_pipeline stubEnvBase "Foo" "foo" "beginner" none emptySt).1) h2]
  have h0f : mitigationTriggered
      (initialLoopState stubEnvBase "Foo" "foo"
        (stubEnvBase.find emptySt.findCalls) emptySt).biasReview
      (initialLoopState stubEnvBase "Foo" "foo"
        (stubEnvBase.find emptySt.findCalls) emptySt).contentReview = false := rfl
  have hfin := mitigationLoop_done stubEnvBase "Foo" "foo"
    (stubEnvBase.find emptySt.findCalls)
    (initialLoopState stubEnvBase "Foo" "foo" (stubEnvBase.find emptySt.findCalls) emptySt) h0f
  refine ⟨by decide, rfl, ?_⟩
  show (mitigationLoop stubEnvBase "Foo" "foo" (stubEnvBase.find emptySt.findCalls)
      (initialLoopState stubEnvBase "Foo" "foo"
        (stubEnvBase.find emptySt.findCalls) emptySt)).metrics.cache_hits + 1 = 1
  rw [hfin]
  rfl

end ConceptConnector
